import Mathlib

/-!
# Verification of the rpi-music-visualizer render pipeline

Shallow embedding of `src/gfx/gfx.rs` and `src/visualizer/smiley.rs`.

Modelling conventions:
* Rust `f32` values (audio band amplitudes, the visualizer's `amplitude` and
  `phase` fields, vertex data) are embedded as exact rationals `ℚ`; the
  arithmetic performed by the code (addition, subtraction, division by 1.0,
  `f32::min`) is exact on the concrete literals involved.
* Rust `i32`/`u32` handles and sizes are embedded as `ℤ` (no overflow occurs
  in any of the verified properties; the `i32 → u32` conversion performed when
  the pipeline's `size` is handed to `SmileyVisualizer::setup` as
  `framebuffer_id` is the identity on the values considered).
* GL calls are recorded as an explicit command trace (`GlCmd`), and the
  observable allocation state of the GL context (fresh object names, numbers
  of live objects of each kind) is threaded as an explicit `GlState`.
  Responses of the GL driver that the code branches on (shader compile /
  program link status and their info logs) are an explicit `ShaderEnv` input.
* A Rust `panic!` (and an out-of-bounds index, which panics) is embedded as
  `Option.none` / `SetupResult.panicked`: the function does not return
  normally.
* The `audio` and `screen` modules and the `visualizer::Visualizer` wrapper
  are external to the two source files; `AudioFrame` is embedded from its use
  site (`audio_frame.hundred_hz_buckets[i]`, per-band amplitude values) and
  the screen's render call is recorded as an opaque trace event, exactly as
  the pipeline invokes it.
-/

/-- An audio analysis frame. Only the `hundred_hz_buckets` field is read by
the code under verification (`smiley.rs` line 105); it is an ordered sequence
of per-band amplitude values, one per 100 Hz bucket. -/
structure AudioFrame where
  hundred_hz_buckets : List ℚ
deriving DecidableEq

/-- State of `SmileyVisualizer` (`smiley.rs` lines 12-19).
Rust field types: `program_id : u32`, `framebuffer_id : u32`,
`vertex_data : Vec<f32>`, `amplitude : f32`, `phase : f32`. -/
structure Smiley where
  program_id : ℤ
  framebuffer_id : ℤ
  vertex_data : List ℚ
  amplitude : ℚ
  phase : ℚ
deriving DecidableEq

/-- `SmileyVisualizer::new` (`smiley.rs` lines 22-31). -/
def smiley_new : Smiley :=
  { program_id := 0
    framebuffer_id := 0
    vertex_data := []
    amplitude := 0
    phase := 0 }

/-- `generate_vertex_data` (`smiley.rs` lines 163-174): the fixed six-vertex
two-triangle quad, with `size = 1.0`. -/
def generate_vertex_data : List ℚ :=
  let size : ℚ := 1
  [-size, -size,
   -size, size,
   size, size,
   -size, -size,
   size, -size,
   size, size]

/-- The sum computed by the loop `for i in 4..20 { amplitude +=
audio_frame.hundred_hz_buckets[i] }` (`smiley.rs` lines 104-106), given that
all sixteen indices are in bounds: the sum of buckets 4 through 19. -/
def bandSum (f : AudioFrame) : ℚ :=
  ((f.hundred_hz_buckets.drop 4).take 16).sum

/-- The literal `3.14 * 2.0` used as the wrap bound (`smiley.rs` line 111). -/
def twoPi314 : ℚ := (314 / 100) * 2

/-- The phase advance of one `update` call (`smiley.rs` lines 110-113):
`phase += 0.1; if phase >= 3.14 * 2.0 { phase -= 3.14 * 2.0 }`. -/
def phaseStep (p : ℚ) : ℚ :=
  let q := p + 1 / 10
  if twoPi314 ≤ q then q - twoPi314 else q

/-- `SmileyVisualizer::update` (`smiley.rs` lines 99-114).
The Rust loop indexes `hundred_hz_buckets[i]` for `i in 4..20` and panics if
the frame has fewer than 20 buckets; that panic is `none`. On the in-bounds
path: `vertex_data = generate_vertex_data()`; `amplitude` is the band sum,
divided by `1.0` (line 107) and upper-clamped by `f32::min(1.0, _)`
(line 108); `phase` advances by `phaseStep`. -/
def smiley_update (audio_frame : AudioFrame) (s : Smiley) : Option Smiley :=
  if 20 ≤ audio_frame.hundred_hz_buckets.length then
    some { s with
            vertex_data := generate_vertex_data
            amplitude := min 1 (bandSum audio_frame / 1)
            phase := phaseStep s.phase }
  else
    none

/-- Iterated `update` over a list of frames (in order); `none` as soon as one
update panics. -/
def smiley_updates : List AudioFrame → Smiley → Option Smiley
  | [], s => some s
  | f :: fs, s => (smiley_update f s).bind (smiley_updates fs)

/-- Observable allocation state of the GL context: the next fresh object
name handed out by `Gen*`/`Create*` calls, whether the optional
`BindVertexArray` entry point is loaded (`smiley.rs` line 130), and how many
objects of each kind have been created and not deleted. The two source files
contain no `Delete*` call, so the `*Alive` counters only ever grow. -/
structure GlState where
  nextId : ℤ
  bindVertexArrayLoaded : Bool
  programsAlive : ℕ
  buffersAlive : ℕ
  framebuffersAlive : ℕ
  vertexArraysAlive : ℕ
deriving DecidableEq

/-- One GL command / pipeline-level call, as recorded in a trace. -/
inductive GlCmd where
  | clearColor (r g b a : ℚ)
  | clear
  | viewport (x y w h : ℤ)
  | useProgram (id : ℤ)
  | genBuffer (id : ℤ)
  | bindBuffer (id : ℤ)
  | bufferData (len : ℕ)
  | genVertexArray (id : ℤ)
  | bindVertexArray (id : ℤ)
  | getAttribLocation (nm : String)
  | vertexAttribPointer
  | enableVertexAttribArray
  | getUniformLocation (nm : String)
  | uniform1f (nm : String) (v : ℚ)
  | bindFramebuffer (id : ℤ)
  | drawBuffers
  | drawArrays (count : ℤ)
  | compileShader
  | linkProgram
  | visUpdateCall
  | visRenderCall
  | screenRenderCall (texture : Unit) (size : ℤ)
deriving DecidableEq

/-- `SmileyVisualizer::render_to_texture` (`smiley.rs` lines 116-160). The
Rust function takes `&self` (it can mutate no visualizer field) and returns
`()`; the embedding returns the updated GL allocation state, the command
trace, and that `()` return value. `GenBuffers` creates one fresh buffer
every call (lines 120-122); a vertex array object is created and bound only
when the entry point is loaded (lines 130-134); the framebuffer bound is the
stored `framebuffer_id` (line 150); six vertices are drawn (lines 157-158).
-/
def smiley_render_to_texture (s : Smiley) (g0 : GlState) :
    GlState × List GlCmd × Unit :=
  let vb := g0.nextId
  let g1 : GlState :=
    { g0 with nextId := g0.nextId + 1, buffersAlive := g0.buffersAlive + 1 }
  let headCmds : List GlCmd :=
    [GlCmd.useProgram s.program_id,
     GlCmd.genBuffer vb,
     GlCmd.bindBuffer vb,
     GlCmd.bufferData s.vertex_data.length]
  let vaoStep : GlState × List GlCmd :=
    if g0.bindVertexArrayLoaded then
      ({ g1 with nextId := g1.nextId + 1,
                 vertexArraysAlive := g1.vertexArraysAlive + 1 },
       [GlCmd.genVertexArray g1.nextId, GlCmd.bindVertexArray g1.nextId])
    else
      (g1, [])
  let tailCmds : List GlCmd :=
    [GlCmd.getAttribLocation "position",
     GlCmd.vertexAttribPointer,
     GlCmd.enableVertexAttribArray,
     GlCmd.getUniformLocation "amplitude",
     GlCmd.uniform1f "amplitude" s.amplitude,
     GlCmd.getUniformLocation "phase",
     GlCmd.uniform1f "phase" s.phase,
     GlCmd.bindFramebuffer s.framebuffer_id,
     GlCmd.clearColor 0 0 0 1,
     GlCmd.clear,
     GlCmd.drawBuffers,
     GlCmd.drawArrays 6]
  (vaoStep.1, headCmds ++ vaoStep.2 ++ tailCmds, ())

/-- One `update` + `render_to_texture` cycle per frame, accumulating the GL
command traces of the renders. -/
def run_cycles : List AudioFrame → Smiley → GlState →
    Option (Smiley × GlState × List GlCmd)
  | [], s, g => some (s, g, [])
  | f :: fs, s, g =>
    (smiley_update f s).bind fun s1 =>
      let r := smiley_render_to_texture s1 g
      (run_cycles fs s1 r.1).map fun rest =>
        (rest.1, rest.2.1, r.2.1 ++ rest.2.2)

/-- Responses of the GL driver queried during `SmileyVisualizer::setup`:
the `COMPILE_STATUS` of the two shaders, the `LINK_STATUS` of the program,
and the corresponding info logs (`GetShaderInfoLog` / `GetProgramInfoLog`
fill a buffer of `i8` values; embedded as `List ℤ`). -/
structure ShaderEnv where
  vsCompiled : Bool
  vsLog : List ℤ
  fsCompiled : Bool
  fsLog : List ℤ
  linked : Bool
  linkLog : List ℤ
deriving DecidableEq

/-- The conversion `*info_char as u8 as char` applied to each printed info
log byte (`smiley.rs` lines 48-50): an `i8` reinterpreted as `u8` (mod 256)
and then as the Unicode scalar with that code point. -/
def i8ToChar (v : ℤ) : Char := Char.ofNat (v % 256).toNat

/-- Outcome of `SmileyVisualizer::setup`: normal return with the updated
visualizer and GL allocation state, or a `panic!` after printing the listed
characters to standard output. -/
inductive SetupResult where
  | ok (s : Smiley) (g : GlState)
  | panicked (printed : List Char)
deriving DecidableEq

/-- `SmileyVisualizer::setup` (`smiley.rs` lines 33-97). `CreateShader` is
called for the vertex and fragment shaders (fresh names); each compile
status is checked and a failure prints the info log character-by-character
and panics (lines 41-52, 60-71). `CreateProgram` creates the one program
(fresh name, one more live program); `program_id` is stored (line 78) before
the link check, whose failure prints the program log and panics
(lines 82-93). On success `framebuffer_id` is stored from the second
argument (line 95). -/
def smiley_setup (env : ShaderEnv) (framebuffer_id : ℤ) (s : Smiley)
    (g0 : GlState) : SetupResult :=
  let g1 : GlState := { g0 with nextId := g0.nextId + 1 }
  if env.vsCompiled = false then
    SetupResult.panicked (env.vsLog.map i8ToChar)
  else
    let g2 : GlState := { g1 with nextId := g1.nextId + 1 }
    if env.fsCompiled = false then
      SetupResult.panicked (env.fsLog.map i8ToChar)
    else
      let program := g2.nextId
      let g3 : GlState :=
        { g2 with nextId := g2.nextId + 1,
                  programsAlive := g2.programsAlive + 1 }
      let s1 : Smiley := { s with program_id := program }
      if env.linked = false then
        SetupResult.panicked (env.linkLog.map i8ToChar)
      else
        SetupResult.ok { s1 with framebuffer_id := framebuffer_id } g3

/-- The pipeline state (`gfx.rs` lines 111-116): the GL context handle is
the threaded `GlState`; the screen is external and only invoked, so the
retained state is the visualizer and the fixed `size`. -/
structure Pipeline where
  visualizer : Smiley
  size : ℤ
deriving DecidableEq

/-- `GfxPipeline::new` (`gfx.rs` lines 119-136): invokes
`visualizer.setup(&gl, size)` — the second argument of `setup` is the
pipeline's `size` — then `screen.setup(&gl)` (external, no modelled
observable), and stores the fields. A setup panic aborts construction
(`none`). -/
def pipeline_new (env : ShaderEnv) (visualizer : Smiley) (size : ℤ)
    (g : GlState) : Option (Pipeline × GlState) :=
  match smiley_setup env size visualizer g with
  | SetupResult.panicked _ => none
  | SetupResult.ok v g1 => some ({ visualizer := v, size := size }, g1)

/-- `GfxPipeline::update` (`gfx.rs` lines 138-151): `visualizer.update`
first; then `ClearColor(0,0,0,1)` + `Clear` (clear the output to opaque
black); then `Viewport(0,0,size,size)`; then
`visualizer.render_to_texture(gl)`, whose returned value is let-bound as
`texture`; then `Viewport(0,0,size*2,size*2)`; then
`screen.render_from_texture(gl, texture, size)`, recorded with the very
value returned by the render call. A panic inside `visualizer.update`
propagates (`none`). -/
def pipeline_update (audio_frame : AudioFrame) (p : Pipeline) (g : GlState) :
    Option (Pipeline × GlState × List GlCmd) :=
  (smiley_update audio_frame p.visualizer).map fun v =>
    let r := smiley_render_to_texture v g
    let texture := r.2.2
    ({ p with visualizer := v }, r.1,
      [GlCmd.visUpdateCall,
       GlCmd.clearColor 0 0 0 1,
       GlCmd.clear,
       GlCmd.viewport 0 0 p.size p.size,
       GlCmd.visRenderCall]
      ++ r.2.1 ++
      [GlCmd.viewport 0 0 (p.size * 2) (p.size * 2),
       GlCmd.screenRenderCall texture p.size])

/-- Result of `audio_rx.recv()` (`gfx.rs` lines 55-58, 88-91): a frame, or
`Err(RecvError)` when the producer has disconnected. -/
inductive RecvResult where
  | ok (frame : AudioFrame)
  | disconnected
deriving DecidableEq

/-- Windowing events drained by `poll_events` (`gfx.rs` lines 60-67). -/
inductive WinEvent where
  | closed
  | resized (w h : ℤ)
  | other
deriving DecidableEq

/-- Observable actions of one render-loop iteration. -/
inductive LoopAction where
  | pollEvents
  | resizeWindow (w h : ℤ)
  | pipelineUpdate (frame : AudioFrame)
  | swapBuffers
deriving DecidableEq

/-- Effect of the event closure (`gfx.rs` lines 60-67) on the `running`
flag: a `Closed` event sets it to `false`; everything else leaves it. -/
def pollRunning (running : Bool) (events : List WinEvent) : Bool :=
  events.foldl
    (fun acc e => match e with
      | WinEvent.closed => false
      | _ => acc)
    running

/-- Window-resize actions produced by the event closure (`gfx.rs` line 63). -/
def resizeActions (events : List WinEvent) : List LoopAction :=
  events.filterMap fun e =>
    match e with
    | WinEvent.resized w h => some (LoopAction.resizeWindow w h)
    | _ => none

/-- One iteration of the `while running` loop of `render_with_window`
(`gfx.rs` lines 54-71). On `Err(_)` the `continue` skips straight to the
next iteration: no events polled, no `pipeline.update`, no `swap_buffers`,
and `running` untouched. On `Ok(frame)`: poll events (which may clear
`running` and resize the window), then update, then swap — update and swap
run even when a close event was just seen. -/
def windowed_iteration (recv : RecvResult) (events : List WinEvent)
    (running : Bool) : Bool × List LoopAction :=
  match recv with
  | RecvResult.disconnected => (running, [])
  | RecvResult.ok f =>
    (pollRunning running events,
     [LoopAction.pollEvents] ++ resizeActions events ++
       [LoopAction.pipelineUpdate f, LoopAction.swapBuffers])

/-- One iteration of the `loop` of `render_without_window` (`gfx.rs`
lines 87-94). This loop has no exit condition at all; on `Err(_)` the
`continue` performs no action. -/
def headless_iteration (recv : RecvResult) : List LoopAction :=
  match recv with
  | RecvResult.disconnected => []
  | RecvResult.ok f => [LoopAction.pipelineUpdate f]

/-- `gl::NO_ERROR` is the numeric error code 0. -/
def glNoError : ℤ := 0

/-- `cfg!(flag)`: whether a configuration flag is active in the build. -/
def cfgActive (build : List String) (flag : String) : Bool :=
  build.contains flag

/-- The configuration flags relevant here that rustc activates in a debug
build: `debug_assertions` is set, and nothing else. -/
def debugBuildCfgs : List String := ["debug_assertions"]

/-- In a release build neither flag is set. -/
def releaseBuildCfgs : List String := []

/-- Whether the `gl_try!` macro (`gfx.rs` lines 16-28) panics, given the
build configuration and the value the wrapped call would leave in
`GetError`. The macro's guard is `cfg!(debug_assertion)` — written without
the final `s` — so the flag it tests is the (never active) flag named
`debug_assertion`, and only when that flag is active does it call
`GetError` and panic on a code other than `NO_ERROR`. -/
def gl_try_panics (build : List String) (gl_err : ℤ) : Bool :=
  cfgActive build "debug_assertion" && decide (gl_err ≠ glNoError)

/-- Whether a recorded command is the screen's render call. -/
def isScreenRenderCall : GlCmd → Bool
  | GlCmd.screenRenderCall _ _ => true
  | _ => false

/-- Modelled from the spec words "clamped to the range [0, 1]": the claimed
clamping of the amplitude. Used only to compare the claim against the
source's `f32::min(1.0, _)`, which has no lower clamp. -/
def clamp01 (x : ℚ) : ℚ := max 0 (min 1 x)

/-- A frame of twenty all-zero bands. -/
def zeroFrame : AudioFrame := { hundred_hz_buckets := List.replicate 20 0 }

/-- A frame whose bands 4-19 sum to 5. -/
def fiveFrame : AudioFrame :=
  { hundred_hz_buckets := List.replicate 4 0 ++ 5 :: List.replicate 15 0 }

/-- A frame with a negative value in band 4 (bands 4-19 sum to -2). -/
def negFrame : AudioFrame :=
  { hundred_hz_buckets := List.replicate 4 0 ++ (-2) :: List.replicate 15 0 }

/-- A fresh GL context: first object name 1, `BindVertexArray` loaded,
nothing allocated yet. -/
def freshGl : GlState :=
  { nextId := 1
    bindVertexArrayLoaded := true
    programsAlive := 0
    buffersAlive := 0
    framebuffersAlive := 0
    vertexArraysAlive := 0 }

/-- A driver environment in which both shaders compile and the program
links. -/
def goodEnv : ShaderEnv :=
  { vsCompiled := true, vsLog := []
    fsCompiled := true, fsLog := []
    linked := true, linkLog := [] }

/-- A driver environment in which the vertex shader fails to compile with
info log bytes 72 105 ("Hi"). -/
def badEnv : ShaderEnv :=
  { vsCompiled := false, vsLog := [72, 105]
    fsCompiled := true, fsLog := []
    linked := true, linkLog := [] }

/-- The visualizer state after `smiley_setup goodEnv 7 smiley_new freshGl`:
program name 3, `framebuffer_id` stored as the passed 7. -/
def setupSmiley7 : Smiley :=
  { program_id := 3, framebuffer_id := 7, vertex_data := []
    amplitude := 0, phase := 0 }

/-- The GL state after that setup: names 1-3 used, one live program. -/
def setupGl7 : GlState :=
  { nextId := 4
    bindVertexArrayLoaded := true
    programsAlive := 1
    buffersAlive := 0
    framebuffersAlive := 0
    vertexArraysAlive := 0 }

/-- The pipeline built by `pipeline_new goodEnv smiley_new 7 freshGl`. -/
def pipe7 : Pipeline := { visualizer := setupSmiley7, size := 7 }

/-- `setupSmiley7` after one update with `zeroFrame`. -/
def pipe7v : Smiley :=
  { program_id := 3, framebuffer_id := 7
    vertex_data := generate_vertex_data, amplitude := 0, phase := 1 / 10 }

/-- `smiley_new` after one update with `zeroFrame`. -/
def updatedZeroSmiley : Smiley :=
  { program_id := 0, framebuffer_id := 0
    vertex_data := generate_vertex_data, amplitude := 0, phase := 1 / 10 }

/-- `smiley_new` after one update with `fiveFrame`: amplitude clamped from
5 down to 1. -/
def updatedFiveSmiley : Smiley :=
  { program_id := 0, framebuffer_id := 0
    vertex_data := generate_vertex_data, amplitude := 1, phase := 1 / 10 }

/-- Pipeline resulting from `pipeline_update zeroFrame pipe7 freshGl`. -/
def c1p : Pipeline := { visualizer := pipe7v, size := 7 }

/-- GL state resulting from that pipeline update: the render consumed
names 1 (vertex buffer) and 2 (vertex array object). -/
def c1g : GlState :=
  { nextId := 3
    bindVertexArrayLoaded := true
    programsAlive := 0
    buffersAlive := 1
    framebuffersAlive := 0
    vertexArraysAlive := 1 }

/-- Trace of that pipeline update. -/
def c1tr : List GlCmd :=
  [GlCmd.visUpdateCall,
   GlCmd.clearColor 0 0 0 1,
   GlCmd.clear,
   GlCmd.viewport 0 0 7 7,
   GlCmd.visRenderCall,
   GlCmd.useProgram 3,
   GlCmd.genBuffer 1,
   GlCmd.bindBuffer 1,
   GlCmd.bufferData 12,
   GlCmd.genVertexArray 2,
   GlCmd.bindVertexArray 2,
   GlCmd.getAttribLocation "position",
   GlCmd.vertexAttribPointer,
   GlCmd.enableVertexAttribArray,
   GlCmd.getUniformLocation "amplitude",
   GlCmd.uniform1f "amplitude" 0,
   GlCmd.getUniformLocation "phase",
   GlCmd.uniform1f "phase" (1 / 10),
   GlCmd.bindFramebuffer 7,
   GlCmd.clearColor 0 0 0 1,
   GlCmd.clear,
   GlCmd.drawBuffers,
   GlCmd.drawArrays 6,
   GlCmd.viewport 0 0 14 14,
   GlCmd.screenRenderCall () 7]

/-- GL state after `run_cycles [zeroFrame] smiley_new freshGl`. -/
def c8g : GlState :=
  { nextId := 3
    bindVertexArrayLoaded := true
    programsAlive := 0
    buffersAlive := 1
    framebuffersAlive := 0
    vertexArraysAlive := 1 }

/-- Trace of that single cycle (program and framebuffer are still the
`smiley_new` zero handles). -/
def c8tr : List GlCmd :=
  [GlCmd.useProgram 0,
   GlCmd.genBuffer 1,
   GlCmd.bindBuffer 1,
   GlCmd.bufferData 12,
   GlCmd.genVertexArray 2,
   GlCmd.bindVertexArray 2,
   GlCmd.getAttribLocation "position",
   GlCmd.vertexAttribPointer,
   GlCmd.enableVertexAttribArray,
   GlCmd.getUniformLocation "amplitude",
   GlCmd.uniform1f "amplitude" 0,
   GlCmd.getUniformLocation "phase",
   GlCmd.uniform1f "phase" (1 / 10),
   GlCmd.bindFramebuffer 0,
   GlCmd.clearColor 0 0 0 1,
   GlCmd.clear,
   GlCmd.drawBuffers,
   GlCmd.drawArrays 6]

/-- Two visualizers differing only in which offscreen render target
(framebuffer) they own. -/
def smileyA : Smiley :=
  { program_id := 1, framebuffer_id := 1, vertex_data := []
    amplitude := 0, phase := 0 }

/-- As `smileyA`, but owning framebuffer 2 instead of framebuffer 1. -/
def smileyB : Smiley :=
  { program_id := 1, framebuffer_id := 2, vertex_data := []
    amplitude := 0, phase := 0 }

/-- Concrete run for C9: setup followed by two update+render cycles. -/
def c9_final : Option (Smiley × GlState × List GlCmd) :=
  match smiley_setup goodEnv 7 smiley_new freshGl with
  | SetupResult.ok s g => run_cycles [zeroFrame, zeroFrame] s g
  | SetupResult.panicked _ => none

/-! ## Helper lemmas -/

/-- `update` never touches the stored program or framebuffer handles. -/
theorem update_preserves_ids {f : AudioFrame} {s s' : Smiley}
    (h : smiley_update f s = some s') :
    s'.program_id = s.program_id ∧ s'.framebuffer_id = s.framebuffer_id := by
  unfold smiley_update at h
  split at h
  · cases h
    exact ⟨rfl, rfl⟩
  · cases h

/-- `update` advances the phase by `phaseStep` and nothing else affects it. -/
theorem update_phase {f : AudioFrame} {s s' : Smiley}
    (h : smiley_update f s = some s') : s'.phase = phaseStep s.phase := by
  unfold smiley_update at h
  split at h
  · cases h
    rfl
  · cases h

/-- `update` stores exactly `min 1 (bandSum f / 1)` as the amplitude. -/
theorem update_amplitude {f : AudioFrame} {s s' : Smiley}
    (h : smiley_update f s = some s') :
    s'.amplitude = min 1 (bandSum f / 1) := by
  unfold smiley_update at h
  split at h
  · cases h
    rfl
  · cases h

/-- Iterated updates never touch the stored handles. -/
theorem updates_preserve_ids :
    ∀ {frames : List AudioFrame} {s s' : Smiley},
      smiley_updates frames s = some s' →
      s'.program_id = s.program_id ∧ s'.framebuffer_id = s.framebuffer_id := by
  intro frames
  induction frames with
  | nil =>
    intro s s' h
    cases h
    exact ⟨rfl, rfl⟩
  | cons f fs ih =>
    intro s s' h
    unfold smiley_updates at h
    cases hu : smiley_update f s with
    | none => rw [hu] at h; cases h
    | some s1 =>
      rw [hu] at h
      have h1 := update_preserves_ids hu
      have h2 := ih h
      exact ⟨h2.1.trans h1.1, h2.2.trans h1.2⟩

/-- The phase after iterated updates is the iterate of `phaseStep`. -/
theorem updates_phase :
    ∀ {frames : List AudioFrame} {s s' : Smiley},
      smiley_updates frames s = some s' →
      s'.phase = phaseStep^[frames.length] s.phase := by
  intro frames
  induction frames with
  | nil =>
    intro s s' h
    cases h
    rfl
  | cons f fs ih =>
    intro s s' h
    unfold smiley_updates at h
    cases hu : smiley_update f s with
    | none => rw [hu] at h; cases h
    | some s1 =>
      rw [hu] at h
      have h1 := update_phase hu
      have h2 := ih h
      rw [List.length_cons, Function.iterate_succ_apply, ← h1]
      exact h2

/-- `phaseStep` never produces a negative phase from a nonnegative one. -/
theorem phaseStep_nonneg {p : ℚ} (hp : 0 ≤ p) : 0 ≤ phaseStep p := by
  simp only [phaseStep]
  split
  next h => linarith
  next h => linarith

/-- While the running total stays below the wrap bound, `phaseStep` iterated
from 0 is exactly `n / 10`. -/
theorem phaseStep_iterate_eq (n : ℕ) (h : (n : ℚ) / 10 < twoPi314) :
    phaseStep^[n] (0 : ℚ) = (n : ℚ) / 10 := by
  induction n with
  | zero => simp
  | succ m ih =>
    have hm : (m : ℚ) / 10 < twoPi314 := by
      have : (m : ℚ) ≤ (m + 1 : ℕ) := by push_cast; linarith
      calc (m : ℚ) / 10 ≤ ((m + 1 : ℕ) : ℚ) / 10 := by
            push_cast
            linarith
        _ < twoPi314 := h
    rw [Function.iterate_succ_apply', ih hm]
    unfold phaseStep
    have hlt : ¬ twoPi314 ≤ (m : ℚ) / 10 + 1 / 10 := by
      push_cast at h
      intro hc
      have : ((m : ℚ) + 1) / 10 = (m : ℚ) / 10 + 1 / 10 := by ring
      rw [this] at h
      linarith
    simp only [hlt, if_false]
    push_cast
    ring

/-- Boolean form: no command a render emits is the screen render call, a
shader compilation, or a program link. -/
theorem render_trace_all (s : Smiley) (g : GlState) :
    ((smiley_render_to_texture s g).2.1.all fun c =>
      !isScreenRenderCall c && !(c == GlCmd.compileShader) &&
        !(c == GlCmd.linkProgram)) = true := by
  cases hvao : g.bindVertexArrayLoaded <;>
    simp only [smiley_render_to_texture, hvao] <;> rfl

/-- Every command a render emits: none is the screen render call, a shader
compilation, or a program link. -/
theorem render_trace_cmds (s : Smiley) (g : GlState) :
    ∀ c ∈ (smiley_render_to_texture s g).2.1,
      isScreenRenderCall c = false ∧ c ≠ GlCmd.compileShader ∧
        c ≠ GlCmd.linkProgram := by
  intro c hc
  have h := render_trace_all s g
  rw [List.all_eq_true] at h
  have hb := h c hc
  simp only [Bool.and_eq_true, Bool.not_eq_true', beq_eq_false_iff_ne] at hb
  exact ⟨hb.1.1, hb.1.2, hb.2⟩

/-- The render always binds the framebuffer stored in the visualizer. -/
theorem render_binds_framebuffer (s : Smiley) (g : GlState) :
    GlCmd.bindFramebuffer s.framebuffer_id ∈
      (smiley_render_to_texture s g).2.1 := by
  cases hvao : g.bindVertexArrayLoaded <;>
    simp [smiley_render_to_texture, hvao]

/-- Effect of one render on the allocation counters: exactly one more live
vertex buffer, possibly one more vertex array object, nothing else. -/
theorem render_counts (s : Smiley) (g : GlState) :
    (smiley_render_to_texture s g).1.programsAlive = g.programsAlive ∧
    (smiley_render_to_texture s g).1.buffersAlive = g.buffersAlive + 1 ∧
    (smiley_render_to_texture s g).1.framebuffersAlive =
      g.framebuffersAlive := by
  cases hvao : g.bindVertexArrayLoaded <;>
    simp [smiley_render_to_texture, hvao]

/-- Inversion for a successful setup: the stored framebuffer handle is the
second argument, exactly one program was created, and no buffer or
framebuffer was. -/
theorem setup_ok_inv {env : ShaderEnv} {fb : ℤ} {s v : Smiley}
    {g g' : GlState} (h : smiley_setup env fb s g = SetupResult.ok v g') :
    v.framebuffer_id = fb ∧
    g'.programsAlive = g.programsAlive + 1 ∧
    g'.buffersAlive = g.buffersAlive ∧
    g'.framebuffersAlive = g.framebuffersAlive := by
  unfold smiley_setup at h
  split at h
  · cases h
  · split at h
    · cases h
    · split at h
      · cases h
      · cases h
        exact ⟨rfl, rfl, rfl, rfl⟩

/-- Combined induction for a run of update+render cycles: the visualizer
state is exactly what the updates alone produce, the live-program and
live-framebuffer counts are untouched, the live-buffer count grows by one
per cycle, and the emitted trace contains no screen render call, no shader
compilation and no program link. -/
theorem run_cycles_inv :
    ∀ {frames : List AudioFrame} {s s' : Smiley} {g g' : GlState}
      {tr : List GlCmd},
      run_cycles frames s g = some (s', g', tr) →
      smiley_updates frames s = some s' ∧
      g'.programsAlive = g.programsAlive ∧
      g'.buffersAlive = g.buffersAlive + frames.length ∧
      g'.framebuffersAlive = g.framebuffersAlive ∧
      ∀ c ∈ tr, isScreenRenderCall c = false ∧
        c ≠ GlCmd.compileShader ∧ c ≠ GlCmd.linkProgram := by
  intro frames
  induction frames with
  | nil =>
    intro s s' g g' tr h
    cases h
    exact ⟨rfl, rfl, by simp, rfl, by simp⟩
  | cons f fs ih =>
    intro s s' g g' tr h
    unfold run_cycles at h
    cases hu : smiley_update f s with
    | none => rw [hu] at h; cases h
    | some s1 =>
      rw [hu] at h
      simp only [Option.some_bind] at h
      cases hrest : run_cycles fs s1 (smiley_render_to_texture s1 g).1 with
      | none => rw [hrest] at h; cases h
      | some rest =>
        rw [hrest] at h
        simp only [Option.map_some'] at h
        obtain ⟨rs, rg, rtr⟩ := rest
        cases h
        have hr := render_counts s1 g
        have hi := ih hrest
        refine ⟨?_, ?_, ?_, ?_, ?_⟩
        · unfold smiley_updates
          rw [hu]
          exact hi.1
        · rw [hi.2.1, hr.1]
        · rw [hi.2.2.1, hr.2.1, List.length_cons]
          ring
        · rw [hi.2.2.2.1, hr.2.2]
        · intro c hc
          rcases List.mem_append.mp hc with hmem | hmem
          · exact render_trace_cmds s1 g c hmem
          · exact hi.2.2.2.2 c hmem

/-- Inversion for a successful pipeline update: the one update of the
visualizer succeeded and the emitted trace has exactly the per-tick shape. -/
theorem pipeline_update_inv {f : AudioFrame} {p : Pipeline} {g : GlState}
    {p' : Pipeline} {g' : GlState} {tr : List GlCmd}
    (h : pipeline_update f p g = some (p', g', tr)) :
    ∃ v, smiley_update f p.visualizer = some v ∧
      p' = { p with visualizer := v } ∧
      g' = (smiley_render_to_texture v g).1 ∧
      tr = [GlCmd.visUpdateCall, GlCmd.clearColor 0 0 0 1, GlCmd.clear,
            GlCmd.viewport 0 0 p.size p.size, GlCmd.visRenderCall]
           ++ (smiley_render_to_texture v g).2.1 ++
           [GlCmd.viewport 0 0 (p.size * 2) (p.size * 2),
            GlCmd.screenRenderCall (smiley_render_to_texture v g).2.2
              p.size] := by
  unfold pipeline_update at h
  cases hu : smiley_update f p.visualizer with
  | none => rw [hu] at h; cases h
  | some v =>
    rw [hu] at h
    simp only [Option.map_some'] at h
    cases h
    exact ⟨v, rfl, rfl, rfl, rfl⟩

/-- A per-tick trace contains exactly one screen render call. -/
theorem tick_trace_one_screen_render (v : Smiley) (p : Pipeline)
    (g : GlState) :
    (([GlCmd.visUpdateCall, GlCmd.clearColor 0 0 0 1, GlCmd.clear,
       GlCmd.viewport 0 0 p.size p.size, GlCmd.visRenderCall]
      ++ (smiley_render_to_texture v g).2.1 ++
      [GlCmd.viewport 0 0 (p.size * 2) (p.size * 2),
       GlCmd.screenRenderCall (smiley_render_to_texture v g).2.2
         p.size]).filter isScreenRenderCall).length = 1 := by
  rw [List.filter_append, List.filter_append]
  have hr : ((smiley_render_to_texture v g).2.1.filter
      isScreenRenderCall) = [] := by
    rw [List.filter_eq_nil_iff]
    intro c hc
    simp [(render_trace_cmds v g c hc).1]
  rw [hr]
  rfl

/-! ## Claim theorems -/

/-- C1 (confirmed): whenever `GfxPipeline::update(audio_frame)` runs to
completion, the steps occur unconditionally and in this order: the
visualizer's update first; then the output surface is cleared to opaque
black (`ClearColor(0,0,0,1)` + `Clear`); then the viewport is set to the
internal `size × size` before `render_to_texture` is invoked; then the
viewport is set to `2*size × 2*size`; and the screen's
`render_from_texture` is invoked exactly once per update call, last. -/
theorem c1_update_sequence (f : AudioFrame) (p : Pipeline) (g : GlState)
    (p' : Pipeline) (g' : GlState) (tr : List GlCmd)
    (h : pipeline_update f p g = some (p', g', tr)) :
    ∃ v, smiley_update f p.visualizer = some v ∧
      tr = [GlCmd.visUpdateCall, GlCmd.clearColor 0 0 0 1, GlCmd.clear,
            GlCmd.viewport 0 0 p.size p.size, GlCmd.visRenderCall]
           ++ (smiley_render_to_texture v g).2.1 ++
           [GlCmd.viewport 0 0 (p.size * 2) (p.size * 2),
            GlCmd.screenRenderCall (smiley_render_to_texture v g).2.2
              p.size] ∧
      (tr.filter isScreenRenderCall).length = 1 := by
  obtain ⟨v, hu, _, _, htr⟩ := pipeline_update_inv h
  refine ⟨v, hu, htr, ?_⟩
  rw [htr]
  exact tick_trace_one_screen_render v p g

/-- C1 witness: the sequence for a concrete pipeline and frame. -/
theorem c1_witness :
    pipeline_update zeroFrame pipe7 freshGl = some (c1p, c1g, c1tr) ∧
    (∃ v, smiley_update zeroFrame pipe7.visualizer = some v ∧
      c1tr = [GlCmd.visUpdateCall, GlCmd.clearColor 0 0 0 1, GlCmd.clear,
              GlCmd.viewport 0 0 pipe7.size pipe7.size, GlCmd.visRenderCall]
             ++ (smiley_render_to_texture v freshGl).2.1 ++
             [GlCmd.viewport 0 0 (pipe7.size * 2) (pipe7.size * 2),
              GlCmd.screenRenderCall
                (smiley_render_to_texture v freshGl).2.2 pipe7.size] ∧
      (c1tr.filter isScreenRenderCall).length = 1) := by
  have hup : pipeline_update zeroFrame pipe7 freshGl =
      some (c1p, c1g, c1tr) := by
    norm_num [pipeline_update, smiley_update, smiley_render_to_texture,
      bandSum, phaseStep, twoPi314, generate_vertex_data, min_def,
      zeroFrame, freshGl, pipe7, setupSmiley7, c1p, c1g, c1tr, pipe7v]
  exact ⟨hup, c1_update_sequence zeroFrame pipe7 freshGl c1p c1g c1tr hup⟩

/-- C2 counterexample: the claim says the stored amplitude equals the band
4-19 sum clamped to [0, 1] for every frame; but the code only applies
`f32::min(1.0, _)`, so a frame with band sum -2 stores amplitude -2 while
the claimed clamp gives 0. -/
theorem c2_counterexample :
    (smiley_update negFrame smiley_new).map Smiley.amplitude = some (-2) ∧
    clamp01 (bandSum negFrame) = 0 ∧
    (smiley_update negFrame smiley_new).map Smiley.amplitude ≠
      some (clamp01 (bandSum negFrame)) := by
  have h1 : (smiley_update negFrame smiley_new).map Smiley.amplitude =
      some (-2) := by
    norm_num [smiley_update, smiley_new, negFrame, bandSum, phaseStep,
      twoPi314, min_def]
  have h2 : clamp01 (bandSum negFrame) = 0 := by
    norm_num [clamp01, bandSum, negFrame, min_def, max_def]
  refine ⟨h1, h2, ?_⟩
  rw [h1, h2]
  norm_num

/-- C2 as amended (corrected): after a completed `update`, the stored
amplitude is `min 1` of the sum of bands 4-19 — an upper clamp only. In
particular a frame whose bands 4-19 sum to 5.0 yields exactly 1.0, and a
frame with all band values in [0, 1] yields an amplitude in [0, 1]. -/
theorem c2_amplitude (f : AudioFrame) (s s' : Smiley)
    (h : smiley_update f s = some s') :
    s'.amplitude = min 1 (bandSum f) ∧
    (bandSum f = 5 → s'.amplitude = 1) ∧
    ((∀ x ∈ f.hundred_hz_buckets, 0 ≤ x ∧ x ≤ 1) →
      0 ≤ s'.amplitude ∧ s'.amplitude ≤ 1) := by
  have ha := update_amplitude h
  rw [div_one] at ha
  refine ⟨ha, ?_, ?_⟩
  · intro h5
    rw [ha, h5]
    norm_num
  · intro hb
    have hsum : 0 ≤ bandSum f := by
      apply List.sum_nonneg
      intro x hx
      have hx' : x ∈ f.hundred_hz_buckets :=
        List.drop_subset _ _ (List.take_subset _ _ hx)
      exact (hb x hx').1
    exact ⟨ha ▸ le_min (by norm_num) hsum, ha ▸ min_le_left _ _⟩

/-- C2 witness: the scenario frame whose bands 4-19 sum to 5 produces
amplitude exactly 1. -/
theorem c2_witness :
    smiley_update fiveFrame smiley_new = some updatedFiveSmiley ∧
    updatedFiveSmiley.amplitude = min 1 (bandSum fiveFrame) ∧
    (bandSum fiveFrame = 5 → updatedFiveSmiley.amplitude = 1) ∧
    ((∀ x ∈ fiveFrame.hundred_hz_buckets, 0 ≤ x ∧ x ≤ 1) →
      0 ≤ updatedFiveSmiley.amplitude ∧ updatedFiveSmiley.amplitude ≤ 1) := by
  have hup : smiley_update fiveFrame smiley_new = some updatedFiveSmiley := by
    norm_num [smiley_update, smiley_new, fiveFrame, updatedFiveSmiley,
      bandSum, phaseStep, twoPi314, generate_vertex_data, min_def]
  exact ⟨hup, c2_amplitude fiveFrame smiley_new updatedFiveSmiley hup⟩

/-- C3 (confirmed): starting from the freshly constructed visualizer
(phase 0), the phase is never negative after any sequence of completed
updates; as long as `0.1·N` has not reached the literal `2·3.14` bound,
the phase after N updates is exactly `N/10`; and every single update either
adds exactly 0.1, or — exactly when the incremented value reaches the bound
— adds 0.1 and subtracts `2·3.14` once. -/
theorem c3_phase_behaviour (frames : List AudioFrame) (s : Smiley)
    (h : smiley_updates frames smiley_new = some s) :
    0 ≤ s.phase ∧
    ((frames.length : ℚ) / 10 < twoPi314 →
      s.phase = (frames.length : ℚ) / 10) ∧
    ∀ (f : AudioFrame) (t t' : Smiley), smiley_update f t = some t' →
      (twoPi314 ≤ t.phase + 1 / 10 ∧
        t'.phase = t.phase + 1 / 10 - twoPi314) ∨
      (¬ twoPi314 ≤ t.phase + 1 / 10 ∧ t'.phase = t.phase + 1 / 10) := by
  have hp := updates_phase h
  have h0 : smiley_new.phase = 0 := rfl
  rw [h0] at hp
  refine ⟨?_, ?_, ?_⟩
  · rw [hp]
    have : ∀ n : ℕ, 0 ≤ phaseStep^[n] (0 : ℚ) := by
      intro n
      induction n with
      | zero => simp
      | succ m ih =>
        rw [Function.iterate_succ_apply']
        exact phaseStep_nonneg ih
    exact this frames.length
  · intro hlt
    rw [hp]
    exact phaseStep_iterate_eq frames.length hlt
  · intro f t t' hu
    have ht := update_phase hu
    by_cases hc : twoPi314 ≤ t.phase + 1 / 10
    · left
      refine ⟨hc, ?_⟩
      rw [ht]
      simp only [phaseStep]
      rw [if_pos hc]
    · right
      refine ⟨hc, ?_⟩
      rw [ht]
      simp only [phaseStep]
      rw [if_neg hc]

/-- C3 witness: one update of the fresh visualizer on a concrete frame. -/
theorem c3_witness :
    smiley_updates [zeroFrame] smiley_new = some updatedZeroSmiley ∧
    0 ≤ updatedZeroSmiley.phase ∧
    ((([zeroFrame] : List AudioFrame).length : ℚ) / 10 < twoPi314 →
      updatedZeroSmiley.phase =
        (([zeroFrame] : List AudioFrame).length : ℚ) / 10) ∧
    ∀ (f : AudioFrame) (t t' : Smiley), smiley_update f t = some t' →
      (twoPi314 ≤ t.phase + 1 / 10 ∧
        t'.phase = t.phase + 1 / 10 - twoPi314) ∨
      (¬ twoPi314 ≤ t.phase + 1 / 10 ∧ t'.phase = t.phase + 1 / 10) := by
  have hup : smiley_updates [zeroFrame] smiley_new =
      some updatedZeroSmiley := by
    norm_num [smiley_updates, smiley_update, smiley_new, zeroFrame,
      updatedZeroSmiley, bandSum, phaseStep, twoPi314,
      generate_vertex_data, min_def]
  have h := c3_phase_behaviour [zeroFrame] updatedZeroSmiley hup
  exact ⟨hup, h.1, h.2.1, h.2.2⟩

/-- C4 counterexample: the claim says each `render_to_texture` call returns
a reference to the color texture of that visualizer's offscreen render
target. In the code the function returns `()` — the returned value is the
unit value and is identical for two visualizers that own different
offscreen render targets, so it references no texture at all. -/
theorem c4_counterexample :
    (smiley_render_to_texture smileyA freshGl).2.2 = () ∧
    (smiley_render_to_texture smileyA freshGl).2.2 =
      (smiley_render_to_texture smileyB freshGl).2.2 ∧
    smileyA.framebuffer_id ≠ smileyB.framebuffer_id := by
  refine ⟨rfl, rfl, ?_⟩
  norm_num [smileyA, smileyB]

/-- C4 as amended (corrected): `render_to_texture` returns the unit value
(no texture reference), and the pipeline passes exactly that returned value
to the screen's `render_from_texture`, exactly once per update. -/
theorem c4_unit_passed (f : AudioFrame) (p : Pipeline) (g : GlState)
    (p' : Pipeline) (g' : GlState) (tr : List GlCmd)
    (h : pipeline_update f p g = some (p', g', tr)) :
    (tr.filter isScreenRenderCall).length = 1 ∧
    ∃ v, smiley_update f p.visualizer = some v ∧
      GlCmd.screenRenderCall (smiley_render_to_texture v g).2.2 p.size
        ∈ tr := by
  obtain ⟨v, hu, _, _, htr⟩ := pipeline_update_inv h
  constructor
  · rw [htr]
    exact tick_trace_one_screen_render v p g
  · refine ⟨v, hu, ?_⟩
    rw [htr]
    simp

/-- C4 amended witness: the concrete update of `c1_witness`'s pipeline. -/
theorem c4_witness :
    ((c1tr.filter isScreenRenderCall).length = 1 ∧
      ∃ v, smiley_update zeroFrame pipe7.visualizer = some v ∧
        GlCmd.screenRenderCall
          (smiley_render_to_texture v freshGl).2.2 pipe7.size ∈ c1tr) := by
  have hup : pipeline_update zeroFrame pipe7 freshGl =
      some (c1p, c1g, c1tr) := by
    norm_num [pipeline_update, smiley_update, smiley_render_to_texture,
      bandSum, phaseStep, twoPi314, generate_vertex_data, min_def,
      zeroFrame, freshGl, pipe7, setupSmiley7, c1p, c1g, c1tr, pipe7v]
  exact c4_unit_passed zeroFrame pipe7 freshGl c1p c1g c1tr hup

/-- C5 (code_bug): the claim — and the macro's evident intent — is that in
debug builds every wrapped GL call is followed by an error check that
terminates the process on a code other than `NO_ERROR`. But the guard is
written `cfg!(debug_assertion)`, a misspelling of the rustc flag
`debug_assertions`: the flag named `debug_assertion` is not active even in
a debug build, so the check never runs and `gl_try!` never panics — here
evaluated at the failing input: a debug build (where `debug_assertions` is
active) and GL error code 1282. -/
theorem c5_debug_check_never_runs :
    cfgActive debugBuildCfgs "debug_assertions" = true ∧
    (1282 : ℤ) ≠ glNoError ∧
    gl_try_panics debugBuildCfgs 1282 = false ∧
    gl_try_panics releaseBuildCfgs 1282 = false := by
  refine ⟨rfl, by norm_num [glNoError], ?_, rfl⟩
  norm_num [gl_try_panics, cfgActive, debugBuildCfgs, glNoError]
  decide

/-- C6 (confirmed): in both render loops, when the channel's receive
reports the producer disconnected, the iteration performs no action at all
— no event poll, no `pipeline.update`, no present — and the windowed loop's
`running` flag is left unchanged, so neither loop terminates because of the
disconnection (the headless loop has no exit condition to begin with). -/
theorem c6_disconnect_continues (events : List WinEvent) (running : Bool) :
    windowed_iteration RecvResult.disconnected events running =
      (running, []) ∧
    headless_iteration RecvResult.disconnected = [] :=
  ⟨rfl, rfl⟩

/-- C7 (confirmed): if the vertex shader, the fragment shader, or the
program link fails, `setup` prints the corresponding info log
character-by-character (each `i8` cast to `u8` and then to `char`) and
panics — it never returns normally — and consequently pipeline
construction aborts, so no `update` can ever run on such a pipeline. -/
theorem c7_setup_failure (env : ShaderEnv) (fb : ℤ) (s : Smiley)
    (g : GlState)
    (h : env.vsCompiled = false ∨ env.fsCompiled = false ∨
      env.linked = false) :
    smiley_setup env fb s g = SetupResult.panicked
      ((if env.vsCompiled = false then env.vsLog
        else if env.fsCompiled = false then env.fsLog
        else env.linkLog).map i8ToChar) ∧
    ∀ (size : ℤ) (v : Smiley) (g0 : GlState),
      pipeline_new env v size g0 = none := by
  have hset : ∀ (fb' : ℤ) (s' : Smiley) (g' : GlState),
      smiley_setup env fb' s' g' = SetupResult.panicked
        ((if env.vsCompiled = false then env.vsLog
          else if env.fsCompiled = false then env.fsLog
          else env.linkLog).map i8ToChar) := by
    intro fb' s' g'
    cases hv : env.vsCompiled
    · simp [smiley_setup, hv]
    · cases hf : env.fsCompiled
      · simp [smiley_setup, hv, hf]
      · cases hl : env.linked
        · simp [smiley_setup, hv, hf, hl]
        · rw [hv, hf, hl] at h
          simp at h
  refine ⟨hset fb s g, ?_⟩
  intro size v g0
  rw [pipeline_new, hset size v g0]

/-- C7 witness: a failing vertex-shader compile with log bytes 72 105
prints "Hi" and panics, and pipeline construction yields nothing. -/
theorem c7_witness :
    smiley_setup badEnv 7 smiley_new freshGl =
      SetupResult.panicked ['H', 'i'] ∧
    pipeline_new badEnv smiley_new 7 freshGl = none := by
  have h := c7_setup_failure badEnv 7 smiley_new freshGl
    (Or.inl rfl)
  refine ⟨h.1.trans ?_, h.2 7 smiley_new freshGl⟩
  norm_num [badEnv, i8ToChar]
  constructor <;> rfl

/-- C8 (confirmed): after setup, any sequence of `update` +
`render_to_texture` cycles leaves `program_id` and `framebuffer_id`
unchanged and re-triggers no shader compilation and no program link; the
visualizer state after the cycles is exactly what the updates alone
produce (`render_to_texture` takes the visualizer by shared reference and
mutates no field). -/
theorem c8_no_recompilation (frames : List AudioFrame) (s s' : Smiley)
    (g g' : GlState) (tr : List GlCmd)
    (h : run_cycles frames s g = some (s', g', tr)) :
    smiley_updates frames s = some s' ∧
    s'.program_id = s.program_id ∧
    s'.framebuffer_id = s.framebuffer_id ∧
    ∀ c ∈ tr, c ≠ GlCmd.compileShader ∧ c ≠ GlCmd.linkProgram := by
  have hi := run_cycles_inv h
  have hid := updates_preserve_ids hi.1
  exact ⟨hi.1, hid.1, hid.2,
    fun c hc => ⟨(hi.2.2.2.2 c hc).2.1, (hi.2.2.2.2 c hc).2.2⟩⟩

/-- C8 witness: one concrete cycle. -/
theorem c8_witness :
    run_cycles [zeroFrame] smiley_new freshGl =
      some (updatedZeroSmiley, c8g, c8tr) ∧
    smiley_updates [zeroFrame] smiley_new = some updatedZeroSmiley ∧
    updatedZeroSmiley.program_id = smiley_new.program_id ∧
    updatedZeroSmiley.framebuffer_id = smiley_new.framebuffer_id ∧
    ∀ c ∈ c8tr, c ≠ GlCmd.compileShader ∧ c ≠ GlCmd.linkProgram := by
  have hrun : run_cycles [zeroFrame] smiley_new freshGl =
      some (updatedZeroSmiley, c8g, c8tr) := by
    norm_num [run_cycles, smiley_update, smiley_render_to_texture,
      smiley_new, freshGl, zeroFrame, updatedZeroSmiley, c8g, c8tr,
      bandSum, phaseStep, twoPi314, generate_vertex_data, min_def]
  have h := c8_no_recompilation [zeroFrame] smiley_new updatedZeroSmiley
    freshGl c8g c8tr hrun
  exact ⟨hrun, h.1, h.2.1, h.2.2.1, h.2.2.2⟩

/-- C9 counterexample: the claim says at most one vertex buffer created by
the instance exists at any time; but every `render_to_texture` call
creates a fresh vertex buffer and no call ever deletes one, so after setup
and two cycles two vertex buffers created by the instance are alive. -/
theorem c9_counterexample :
    c9_final.map (fun r => r.2.1.buffersAlive) = some 2 ∧ ¬ (2 ≤ 1) := by
  constructor
  · norm_num [c9_final, smiley_setup, goodEnv, smiley_new, freshGl,
      run_cycles, smiley_update, smiley_render_to_texture, zeroFrame,
      bandSum, phaseStep, twoPi314, generate_vertex_data, min_def]
  · norm_num

/-- C9 as amended (corrected): across a setup followed by any number of
completed update+render cycles, exactly one GPU program created by the
instance is alive and the instance creates no framebuffer of its own — but
one fresh vertex buffer is created per cycle and never deleted, so after N
cycles exactly N vertex buffers created by the instance are alive (there
is still no pooling: no buffer is ever reused). -/
theorem c9_resource_counts (env : ShaderEnv) (fb : ℤ) (s0 s1 s2 : Smiley)
    (g0 g1 g2 : GlState) (frames : List AudioFrame) (tr : List GlCmd)
    (hset : smiley_setup env fb s0 g0 = SetupResult.ok s1 g1)
    (hrun : run_cycles frames s1 g1 = some (s2, g2, tr)) :
    g2.programsAlive = g0.programsAlive + 1 ∧
    g2.framebuffersAlive = g0.framebuffersAlive ∧
    g2.buffersAlive = g0.buffersAlive + frames.length := by
  have h1 := setup_ok_inv hset
  have h2 := run_cycles_inv hrun
  refine ⟨?_, ?_, ?_⟩
  · rw [h2.2.1, h1.2.1]
  · rw [h2.2.2.2.1, h1.2.2.2]
  · rw [h2.2.2.1, h1.2.2.1]

/-- C9 amended witness: a concrete setup followed by zero cycles. -/
theorem c9_witness :
    smiley_setup goodEnv 7 smiley_new freshGl =
      SetupResult.ok setupSmiley7 setupGl7 ∧
    run_cycles [] setupSmiley7 setupGl7 =
      some (setupSmiley7, setupGl7, []) ∧
    setupGl7.programsAlive = freshGl.programsAlive + 1 ∧
    setupGl7.framebuffersAlive = freshGl.framebuffersAlive ∧
    setupGl7.buffersAlive =
      freshGl.buffersAlive + ([] : List AudioFrame).length := by
  have hset : smiley_setup goodEnv 7 smiley_new freshGl =
      SetupResult.ok setupSmiley7 setupGl7 := by
    norm_num [smiley_setup, goodEnv, smiley_new, freshGl, setupSmiley7,
      setupGl7]
  have hrun : run_cycles [] setupSmiley7 setupGl7 =
      some (setupSmiley7, setupGl7, []) := rfl
  exact ⟨hset, hrun, c9_resource_counts goodEnv 7 smiley_new setupSmiley7
    setupSmiley7 freshGl setupGl7 setupGl7 [] [] hset hrun⟩

/-- C10 (confirmed): `GfxPipeline::new(gl, visualizer, screen, size)` hands
its `size` value to the visualizer's setup as the second argument, which
`SmileyVisualizer::setup` stores verbatim as `framebuffer_id`; therefore
every later `render_to_texture` call — after any number of completed
updates, which do not touch the handle — binds the framebuffer whose
numeric handle equals the pipeline's `size`. -/
theorem c10_framebuffer_is_size (env : ShaderEnv) (s0 : Smiley) (size : ℤ)
    (g : GlState) (p : Pipeline) (g1 : GlState)
    (h : pipeline_new env s0 size g = some (p, g1)) :
    p.size = size ∧ p.visualizer.framebuffer_id = size ∧
    ∀ (frames : List AudioFrame) (v : Smiley),
      smiley_updates frames p.visualizer = some v →
      ∀ g2 : GlState,
        GlCmd.bindFramebuffer size ∈
          (smiley_render_to_texture v g2).2.1 := by
  unfold pipeline_new at h
  cases hset : smiley_setup env size s0 g with
  | panicked l => rw [hset] at h; cases h
  | ok v' g' =>
    rw [hset] at h
    cases h
    have hfb := (setup_ok_inv hset).1
    refine ⟨rfl, hfb, ?_⟩
    intro frames v hupd g2
    have hfv := (updates_preserve_ids hupd).2
    rw [← hfv.trans hfb]
    exact render_binds_framebuffer v g2

/-- C10 witness: size 7 ends up as the bound framebuffer handle. -/
theorem c10_witness :
    pipeline_new goodEnv smiley_new 7 freshGl = some (pipe7, setupGl7) ∧
    pipe7.size = 7 ∧ pipe7.visualizer.framebuffer_id = 7 ∧
    GlCmd.bindFramebuffer 7 ∈
      (smiley_render_to_texture pipe7v freshGl).2.1 := by
  have hp : pipeline_new goodEnv smiley_new 7 freshGl =
      some (pipe7, setupGl7) := by
    norm_num [pipeline_new, smiley_setup, goodEnv, smiley_new, freshGl,
      pipe7, setupSmiley7, setupGl7]
  have h := c10_framebuffer_is_size goodEnv smiley_new 7 freshGl pipe7
    setupGl7 hp
  have hupd : smiley_updates [zeroFrame] pipe7.visualizer = some pipe7v := by
    norm_num [smiley_updates, smiley_update, pipe7, setupSmiley7,
      zeroFrame, pipe7v, bandSum, phaseStep, twoPi314,
      generate_vertex_data, min_def]
  exact ⟨hp, h.1, h.2.1, h.2.2 [zeroFrame] pipe7v hupd freshGl⟩
